import Mathlib

/-!
Shallow embedding of `files/usr/local/sbin/btnap.service.py` (pi-btnap).

The script drives BlueZ over D-Bus either as a PAN network server or as a
PAN client.  The embedding models:

* the object-directory resolver `find_adapter_in_objects` /
  `find_device_in_objects` (script lines 52-79);
* the client connection-negotiation loop (script lines 204-219);
* the server registration / cleanup flow including the `brctl` bridge
  precondition check (script lines 162-193);
* the systemd liveness loop `wait_iter` and its watchdog configuration
  (script lines 138-158).

D-Bus calls are modelled by explicit outcome values supplied by an
environment; a Python exception propagating out of a region is modelled by
an error result.  Traces of the externally visible calls (Connect,
Disconnect, Unregister, notifications, ...) are recorded as lists of
events so that claims about "no disconnect is issued" or "unregistered
exactly once" are statements about the trace.
-/

/-- A D-Bus exception as seen through `err.get_dbus_name()`: identified by
its D-Bus error name. -/
structure DBusErr where
  name : String
deriving DecidableEq, Repr

/-- Outcome of a single D-Bus method call: a normal return or a raised
`dbus.exceptions.DBusException`. -/
inductive DRes (α : Type) where
  | ok : α → DRes α
  | fail : DBusErr → DRes α
deriving DecidableEq, Repr

/-! ## Object directory resolver (script lines 52-79)

A snapshot returned by `GetManagedObjects` is a list of object paths, each
carrying the `Address` exposed on its `org.bluez.Adapter1` interface (if
present) and on its `org.bluez.Device1` interface (if present).  The list
order is the Python dict iteration order of the snapshot. -/

structure DirEntry where
  path : String
  adapterAddr : Option String
  deviceAddr : Option String
deriving DecidableEq, Repr

/-- Python `str.startswith`, embedded structurally over the character
lists so that concrete instances evaluate. -/
def pyStartsWith (s scope : String) : Bool :=
  List.isPrefixOf scope.data s.data

/-- Python `str.endswith`, embedded structurally over the character
lists. -/
def pyEndsWith (s suf : String) : Bool :=
  List.isSuffixOf suf.data s.data

/-- Body of the generator function `find_adapter_in_objects` (lines 52-61):
once iterated it yields, in snapshot order, the path of every object
carrying the adapter interface and matching the pattern
(`not pattern or pattern == adapter.Address or path.endswith(pattern)`).
Exhausting the generator with no match raises `BTError`; that error is not
modelled here because `find_device_in_objects` never iterates the
generator at all. -/
def find_adapter_in_objects (objects : List DirEntry) (pat : Option String) :
    List String :=
  objects.filterMap fun o =>
    match o.adapterAddr with
    | none => none
    | some addr =>
      let p := pat.getD ""
      if p = "" ∨ p = addr ∨ pyEndsWith o.path p then some o.path else none

/-- The `adapter_pattern` argument of `find_device_in_objects`: either an
already-resolved `dbus.Interface` adapter object (carrying its
`object_path`) or a plain pattern string. -/
inductive AdapterArg where
  | resolved (object_path : String)
  | patternStr (s : String)
deriving DecidableEq, Repr

/-- Python truthiness of the `adapter_pattern` argument (`if adapter_pattern:`,
line 69): a resolved object is always truthy, a string is truthy iff
nonempty. -/
def adapterArgTruthy : AdapterArg → Bool
  | .resolved _ => true
  | .patternStr s => !(s == "")

/-- The Python value bound to the local `adapter` at line 70-71: the
resolved interface object itself, or the generator object returned by
calling `find_adapter_in_objects` (whose body has not started running). -/
inductive PyAdapterVal where
  | ifaceObj (object_path : String)
  | generatorObj (pending : List String)
deriving DecidableEq, Repr

/-- Failure modes of `find_device_in_objects`. -/
inductive FindDevErr where
  | attributeError
  | deviceNotFound
deriving DecidableEq, Repr

/-- Attribute access `adapter.object_path` (line 72): an interface object
has the attribute; a generator object does not, so Python raises
`AttributeError` (without ever running the generator body). -/
def object_path_attr : PyAdapterVal → Except FindDevErr String
  | .ifaceObj p => .ok p
  | .generatorObj _ => .error .attributeError

/-- Scan of lines 73-79: return the path of the first snapshot entry that
carries the device interface, whose `Address` equals `device_address` and
whose path starts with the given path scope; raise `BTError` if none. -/
def find_device_scan (objects : List DirEntry) (device_address : String)
    (pathScope : String) : Except FindDevErr String :=
  match objects.find? (fun o =>
      match o.deviceAddr with
      | none => false
      | some a => a == device_address && pyStartsWith o.path pathScope) with
  | some o => .ok o.path
  | none => .error .deviceNotFound

/-- Embedding of `find_device_in_objects` (lines 66-79).  The returned
string is the object path of the device that the function wraps in a
`dbus.Interface`. -/
def find_device_in_objects (objects : List DirEntry) (device_address : String)
    (adapterArg : Option AdapterArg) : Except FindDevErr String :=
  match adapterArg with
  | none => find_device_scan objects device_address ""
  | some arg =>
    if adapterArgTruthy arg then
      let adapter : PyAdapterVal :=
        match arg with
        | .resolved p => .ifaceObj p
        | .patternStr s => .generatorObj (find_adapter_in_objects objects (some s))
      match object_path_attr adapter with
      | .ok scope => find_device_scan objects device_address scope
      | .error e => .error e
    else find_device_scan objects device_address ""

/-! ## Client connection negotiation (script lines 204-219)

The environment supplies the outcome of the k-th `net.Connect` call, the
value of the `Connected` property read after the k-th failed connect, and
the outcome of the k-th `net.Disconnect`.  The property reads
`prop_get(net, 'Interface')` (evaluated inside `log.debug` arguments in
the reconnect branch) and `prop_get(net, 'Connected')` are recorded as
trace events; the `Interface` value itself is only logged and does not
influence control flow, so it is not part of the environment. -/

structure ClientEnv where
  connectResult : Nat → DRes String
  connectedProp : Nat → Bool
  disconnectResult : Nat → DRes Unit

/-- Externally visible client actions, indexed by the loop iteration that
issued them. -/
inductive CEvent where
  | connectCall (n : Nat)
  | connectedGet (n : Nat)
  | interfaceGet (n : Nat)
  | disconnectCall (n : Nat)
  | ifNotConnectedCheck
deriving DecidableEq, Repr

/-- How the `for n in range(2)` loop ends, together with the code that
follows it (line 217-219).  If the loop finishes without `iface` ever
being bound, the `log.debug` call at line 217 evaluates the name `iface`
and Python raises `NameError`; this is `nameErrorUnboundIface`. -/
inductive LoopResult where
  | connected (iface : String)
  | raised (e : DBusErr)
  | nameErrorUnboundIface
deriving DecidableEq, Repr

/-- One-to-one embedding of the loop body (lines 204-216), iterating on the
remaining range budget `rem` with `k` the current iteration index:

* `net.Connect` succeeds: bind `iface`, `break` (the try-else).
* it fails with a name other than `org.bluez.Error.Failed`: bare `raise`.
* `Connected` property is falsy: bare `raise`.
* `opts.reconnect`: log (reading the `Interface` property), `Disconnect`,
  `continue`; a failure of the `Disconnect` call itself propagates.
* otherwise control reaches `if not opts.if_not_connected: raise`
  (recorded as `ifNotConnectedCheck`); without the flag the original error
  is re-raised, with it the handler falls through and the loop moves on to
  its next iteration. -/
def connectLoop (env : ClientEnv) (reconnect if_not_connected : Bool) :
    Nat → Nat → LoopResult × List CEvent
  | _, 0 => (.nameErrorUnboundIface, [])
  | k, rem + 1 =>
    match env.connectResult k with
    | .ok iface => (.connected iface, [.connectCall k])
    | .fail e =>
      if e.name ≠ "org.bluez.Error.Failed" then (.raised e, [.connectCall k])
      else if env.connectedProp k = false then
        (.raised e, [.connectCall k, .connectedGet k])
      else if reconnect then
        match env.disconnectResult k with
        | .ok _ =>
          let r := connectLoop env reconnect if_not_connected (k + 1) rem
          (r.1, .connectCall k :: .connectedGet k :: .interfaceGet k ::
            .disconnectCall k :: r.2)
        | .fail d =>
          (.raised d, [.connectCall k, .connectedGet k, .interfaceGet k,
            .disconnectCall k])
      else if if_not_connected = false then
        (.raised e, [.connectCall k, .connectedGet k, .ifNotConnectedCheck])
      else
        let r := connectLoop env reconnect if_not_connected (k + 1) rem
        (r.1, .connectCall k :: .connectedGet k :: .ifNotConnectedCheck :: r.2)

/-- The client network-connect phase: `for n in range(2)` starting at
iteration 0 with a budget of 2. -/
def clientConnect (env : ClientEnv) (reconnect if_not_connected : Bool) :
    LoopResult × List CEvent :=
  connectLoop env reconnect if_not_connected 0 2

/-- Number of `net.Connect` calls recorded in a trace. -/
def countConnects : List CEvent → Nat
  | [] => 0
  | .connectCall _ :: l => countConnects l + 1
  | _ :: l => countConnects l

/-! ## Server registration and shutdown (script lines 162-193)

The BlueZ `org.bluez.NetworkServer1` collaborator is modelled by an
explicit service state: the set of (adapter, uuid) registrations it
currently holds, plus two policy fields describing the service's answer in
the two situations the script can trigger whose outcome BlueZ does not
document: unregistering a uuid that is not registered
(`unregMissing`) and registering a uuid that is already registered
(`regExisting`).  Adapters are identified by a natural index. -/

structure NapService where
  regs : List (Nat × String)
  unregMissing : DRes Unit
  regExisting : DRes Unit
deriving DecidableEq, Repr

/-- Embedding of `server.Unregister(uuid)`: removes the registration when present,
otherwise answers with the service's `unregMissing` policy. -/
def srvUnregister (s : NapService) (a : Nat) (uuid : String) :
    DRes Unit × NapService :=
  if (a, uuid) ∈ s.regs then
    (.ok (), ⟨s.regs.filter (fun q => decide (q ≠ (a, uuid))),
      s.unregMissing, s.regExisting⟩)
  else (s.unregMissing, s)

/-- Embedding of `server.Register(uuid, iface_name)`: records the registration when the
uuid is free, otherwise answers with the service's `regExisting` policy.
The bridge interface name does not influence the modelled state. -/
def srvRegister (s : NapService) (a : Nat) (uuid : String)
    (iface_name : String) : DRes Unit × NapService :=
  if (a, uuid) ∈ s.regs then (s.regExisting, s)
  else (.ok (), ⟨(a, uuid) :: s.regs, s.unregMissing, s.regExisting⟩)

/-- Lines 183-184 for one adapter: `server.Unregister(opts.uuid)` followed
by `server.Register(opts.uuid, opts.iface_name)`.  There is no
`try/except` around the `Unregister` call, so a failure of it propagates
and the `Register` call is never made. -/
def registerDev (s : NapService) (a : Nat) (uuid iface_name : String) :
    DRes Unit × NapService :=
  match srvUnregister s a uuid with
  | (.fail e, s1) => (.fail e, s1)
  | (.ok _, s1) => srvRegister s1 a uuid iface_name

/-- Lines 181-187: iterate over the resolved adapters, registering each in
turn and appending each successfully registered one to `servers`; the
first exception aborts the loop (it is handled by the surrounding
`try/finally`).  Returns the overall outcome, the service state, and the
`servers` list accumulated so far. -/
def registerAll (uuid iface_name : String) :
    List Nat → NapService → List Nat → DRes Unit × NapService × List Nat
  | [], s, servers => (.ok (), s, servers)
  | a :: rest, s, servers =>
    match registerDev s a uuid iface_name with
    | (.ok _, s1) => registerAll uuid iface_name rest s1 (servers ++ [a])
    | (.fail e, s1) => (.fail e, s1, servers)

/-- Line 192, the `finally` cleanup loop:
`for server in servers: server.Unregister(opts.uuid)`.  There is no
`try/except` inside the loop, so the first failing `Unregister` aborts it.
The third component records the adapters on which `Unregister` was
actually invoked (the failing call included). -/
def cleanupUnreg (uuid : String) :
    List Nat → NapService → DRes Unit × NapService × List Nat
  | [], s => (.ok (), s, [])
  | a :: rest, s =>
    match srvUnregister s a uuid with
    | (.ok _, s1) =>
      match cleanupUnreg uuid rest s1 with
      | (r, s2, calls) => (r, s2, a :: calls)
    | (.fail e, s1) => (.fail e, s1, [a])

/-- Result of the `brctl show <iface>` precondition check (lines 163-166):
the process exit status (`brctl.wait()`) and the bytes read from its
standard error stream. -/
structure BrctlResult where
  exitCode : Nat
  stderrOutput : String
deriving DecidableEq, Repr

/-- What breaks the `while True: wait_iter()` loop: the SIGTERM handler
(line 159) raising `SystemExit(0)` via `sys.exit(0)`, or a
`KeyboardInterrupt`. -/
inductive ServeEvent where
  | sigterm
  | keyboardInterrupt
deriving DecidableEq, Repr

/-- Overall outcome of the server branch of `main`. -/
inductive ServerOutcome where
  | bridgeFailed
  | cleanExit
  | errorExit (e : DBusErr)
deriving DecidableEq, Repr

/-- Process exit status produced by each outcome: `return 1` for the
failed bridge check; 0 both for the propagating `SystemExit(0)` and for
the fall-through `return None` reached after a caught
`KeyboardInterrupt`; 1 for an uncaught exception. -/
def processExitCode : ServerOutcome → Nat
  | .bridgeFailed => 1
  | .cleanExit => 0
  | .errorExit _ => 1

/-- How leaving the wait loop ends the run when the `finally` cleanup
succeeds.  SIGTERM: `sys.exit(0)` raises `SystemExit(0)`, which the
`except KeyboardInterrupt` clause does not catch; it propagates through
the `finally` block and the process exits with status 0.
KeyboardInterrupt: caught (`pass`), the `finally` block runs, `main` falls
through and returns `None`, so `sys.exit(main())` exits with status 0. -/
def interruptOutcome : ServeEvent → ServerOutcome
  | .sigterm => .cleanExit
  | .keyboardInterrupt => .cleanExit

/-- Everything observable about one run of the server branch. -/
structure ServerRun where
  outcome : ServerOutcome
  finalState : NapService
  servers : List Nat
  cleanupCalls : List Nat
  remediationPrinted : Bool
  enteredWait : Bool
deriving DecidableEq, Repr

/-- Embedding of the server branch of `main` (lines 162-193):

* lines 167-177: if `brctl` exited nonzero or wrote anything to stderr,
  print the remediation text and `return 1` — no registration, no loop;
* lines 179-188: register every adapter, collecting `servers`; enter the
  wait loop; `intr` says what eventually breaks it;
* lines 190-193: the `finally` block unregisters the collected servers
  (skipped when `servers` is empty); an exception raised during the try
  body or during the cleanup becomes the process outcome. -/
def server_main (br : BrctlResult) (devs : List Nat) (uuid iface_name : String)
    (s : NapService) (intr : ServeEvent) : ServerRun :=
  if br.exitCode ≠ 0 ∨ br.stderrOutput ≠ "" then
    ⟨.bridgeFailed, s, [], [], true, false⟩
  else
    match registerAll uuid iface_name devs s [] with
    | (.fail e, s1, servers) =>
      if servers = [] then ⟨.errorExit e, s1, servers, [], false, false⟩
      else
        match cleanupUnreg uuid servers s1 with
        | (.ok _, s2, calls) => ⟨.errorExit e, s2, servers, calls, false, false⟩
        | (.fail e2, s2, calls) => ⟨.errorExit e2, s2, servers, calls, false, false⟩
    | (.ok _, s1, servers) =>
      if servers = [] then ⟨interruptOutcome intr, s1, servers, [], false, true⟩
      else
        match cleanupUnreg uuid servers s1 with
        | (.ok _, s2, calls) => ⟨interruptOutcome intr, s2, servers, calls, false, true⟩
        | (.fail e2, s2, calls) => ⟨.errorExit e2, s2, servers, calls, false, true⟩

/-! ## Liveness loop and watchdog configuration (script lines 138-158)

`WATCHDOG_PID` is kept as the raw environment string so that the guard
`wd_pid and wd_pid.isdigit() and int(wd_pid) == os.getpid()` is embedded
literally.  `WATCHDOG_USEC` is modelled as the parsed microsecond value
(the source parses the string with `float`); `none` stands for the
variable being unset, in which case `float(None)` raises `TypeError`. -/

structure WatchdogEnv where
  watchdogPidVar : Option String
  watchdogUsecVar : Option Nat
  pid : Nat

/-- Python `str.isdigit` restricted to ASCII: nonempty and all digits. -/
def pyIsDigit (s : String) : Bool :=
  !(s == "") && s.data.all Char.isDigit

/-- Python `int` on a decimal digit string, embedded structurally. -/
def pyInt (s : String) : Nat :=
  s.data.foldl (fun acc ch => acc * 10 + (ch.toNat - 48)) 0

/-- The guard at line 149:
`wd_pid and wd_pid.isdigit() and int(wd_pid) == os.getpid()`. -/
def pidMatches (env : WatchdogEnv) : Bool :=
  match env.watchdogPidVar with
  | none => false
  | some s => !(s == "") && pyIsDigit s && (pyInt s == env.pid)

/-- Outcome of lines 148-157: either the configured `wait_iter` attributes
(`sd_wdt` and the sleep timeout), or a crash before the loop is ever
entered (`float(None)` raising `TypeError`, or the
`assert wd_interval > 0` failing).  The source computes the timeout in
seconds as `min(wd_usec / 2e6, 3600)`; to keep the model exactly
computable it is represented here rescaled by the factor 2e6, i.e. in
units of half a microsecond, which is an injective change of unit:
`min(usec / 2e6, 3600)` seconds is `min usec 7200000000` half
microseconds.  The positivity assert `wd_interval > 0` holds exactly when
`usec > 0`. -/
inductive WaitSetup where
  | ok (sdWdt : Bool) (timeoutHalfMicro : Nat)
  | crashed
deriving DecidableEq, Repr

/-- The fallback sleep interval `wait_iter_noop = 3600` seconds, in the
half-microsecond unit of `WaitSetup`. -/
def wait_iter_noop : Nat := 2000000 * 3600

/-- Embedding of the watchdog configuration (lines 148-157). -/
def wait_iter_setup (env : WatchdogEnv) : WaitSetup :=
  if pidMatches env then
    match env.watchdogUsecVar with
    | none => .crashed
    | some usec =>
      if 0 < usec then .ok true (min usec wait_iter_noop)
      else .crashed
  else .ok false wait_iter_noop

/-- Notifications sent to the supervisor by `wait_iter` (lines 141-147). -/
inductive SdNote where
  | ready
  | statusMsg (role : String)
  | watchdog
deriving DecidableEq, Repr

/-- One call of `wait_iter` (lines 141-147): on the first call emit
`READY=1` and the status message and set `sd_ready`; sleep; then, if
`sd_wdt`, emit `WATCHDOG=1`.  Returns the new `sd_ready` flag and the
notifications emitted by this call, in order. -/
def wait_iter_step (role : String) (sdWdt sdReady : Bool) :
    Bool × List SdNote :=
  ((true : Bool),
    (if sdReady = false then [SdNote.ready, SdNote.statusMsg role] else [])
      ++ (if sdWdt then [SdNote.watchdog] else []))

/-- Run of `n` consecutive calls of `wait_iter` starting from a given `sd_ready`
flag, concatenating the notifications. -/
def wait_iter_run (role : String) (sdWdt : Bool) :
    Nat → Bool → List SdNote
  | 0, _ => []
  | n + 1, sdReady =>
    let st := wait_iter_step role sdWdt sdReady
    st.2 ++ wait_iter_run role sdWdt n st.1

/-- Notifications emitted by a whole run: configure `wait_iter` from the
environment (`sd_ready` starts false, line 157), then iterate the loop `n`
times.  A crashed setup never reaches the loop. -/
def liveness (env : WatchdogEnv) (role : String) (n : Nat) : List SdNote :=
  match wait_iter_setup env with
  | .crashed => []
  | .ok sdWdt _ => wait_iter_run role sdWdt n false

/-- Number of occurrences of one notification in a trace. -/
def countNote (x : SdNote) : List SdNote → Nat
  | [] => 0
  | y :: l => (if y = x then 1 else 0) + countNote x l

/-! ## Concrete inputs used by individual claims -/

/-- Client environment in which every `net.Connect` call fails with the
generic `org.bluez.Error.Failed`, the `Connected` property is always true
(a pre-existing connection), and `Disconnect` succeeds. -/
def envC1 : ClientEnv :=
  ⟨fun _ => .fail ⟨"org.bluez.Error.Failed"⟩, fun _ => true, fun _ => .ok ()⟩

/-- Same environment shape for the neither-flag claim. -/
def envC9 : ClientEnv :=
  ⟨fun _ => .fail ⟨"org.bluez.Error.Failed"⟩, fun _ => true, fun _ => .ok ()⟩

/-- Environment for the reconnect-precedence claim: first connect fails
generically against a live connection, the retry then succeeds. -/
def envC10 : ClientEnv :=
  ⟨fun k => if k = 0 then .fail ⟨"org.bluez.Error.Failed"⟩ else .ok "bnep0",
   fun _ => true, fun _ => .ok ()⟩

/-- Service in which the uuid is not registered and the service answers a
fresh `Unregister` with an error. -/
def sC2 : NapService :=
  ⟨[], .fail ⟨"org.bluez.Error.DoesNotExist"⟩,
    .fail ⟨"org.bluez.Error.AlreadyExists"⟩⟩

/-- Service state at shutdown in which adapter 0's registration has
disappeared (so its `Unregister` fails) while adapter 1 is still
registered. -/
def sC3 : NapService :=
  ⟨[(1, "nap")], .fail ⟨"org.bluez.Error.Failed"⟩, .ok ()⟩

/-- Directory snapshot with one adapter and one device under it. -/
def objsC5 : List DirEntry :=
  [⟨"/org/bluez/hci0", some "11:22:33:44:55:66", none⟩,
   ⟨"/org/bluez/hci0/dev_AA_BB_CC_DD_EE_FF", none, some "AA:BB:CC:DD:EE:FF"⟩]

/-! ## Client connection negotiation: theorems -/

/-- Auxiliary bound: the loop issues at most `rem` `net.Connect` calls. -/
theorem connectLoop_count_le (env : ClientEnv) (r c : Bool) :
    ∀ rem k, countConnects (connectLoop env r c k rem).2 ≤ rem := by
  intro rem
  induction rem with
  | zero => intro k; simp [connectLoop, countConnects]
  | succ m ih =>
    intro k
    have hm := ih (k + 1)
    simp only [connectLoop]
    cases env.connectResult k with
    | ok iface => simp [countConnects]
    | fail e =>
      by_cases h1 : e.name ≠ "org.bluez.Error.Failed"
      · simp [h1, countConnects]
      · by_cases h2 : env.connectedProp k = false
        · simp [h1, h2, countConnects]
        · by_cases h3 : r = true
          · subst h3
            cases hd : env.disconnectResult k with
            | ok u => simp [h1, h2, hd, countConnects]; omega
            | fail d => simp [h1, h2, hd, countConnects]
          · have h3' : r = false := by
              cases r
              · rfl
              · exact absurd rfl h3
            subst h3'
            by_cases h4 : c = false
            · simp [h1, h2, h4, countConnects]
            · have h4' : c = true := by
                cases c
                · exact absurd rfl h4
                · rfl
              subst h4'
              simp [h1, h2, countConnects]; omega

/-- Claim C4: in client mode, for every combination of the reconnect and
if-not-connected flags and every sequence of service-call outcomes, at
most 2 network-connect attempts are issued per invocation. -/
theorem connect_attempts_at_most_two (env : ClientEnv) (r c : Bool) :
    countConnects (clientConnect env r c).2 ≤ 2 :=
  connectLoop_count_le env r c 2 0

/-- Claim C9: in client mode with neither `reconnect` nor
`if-not-connected`, a first network-connect failing with the generic
`org.bluez.Error.Failed` while the `Connected` property is true makes the
run re-raise the original exception after a single connect attempt; the
trace holds no `Disconnect` call. -/
theorem client_neither_flag_propagates (env : ClientEnv) (e : DBusErr)
    (h1 : env.connectResult 0 = .fail e)
    (h2 : e.name = "org.bluez.Error.Failed")
    (h3 : env.connectedProp 0 = true) :
    clientConnect env false false =
      (.raised e, [.connectCall 0, .connectedGet 0, .ifNotConnectedCheck]) := by
  simp [clientConnect, connectLoop, h1, h2, h3]

/-- Witness for C9: the hypotheses hold and the conclusion evaluates at a
concrete environment. -/
theorem client_neither_flag_propagates_witness :
    envC9.connectResult 0 = .fail ⟨"org.bluez.Error.Failed"⟩
    ∧ envC9.connectedProp 0 = true
    ∧ clientConnect envC9 false false =
        (.raised ⟨"org.bluez.Error.Failed"⟩,
         [.connectCall 0, .connectedGet 0, .ifNotConnectedCheck]) :=
  ⟨rfl, rfl,
    client_neither_flag_propagates envC9 ⟨"org.bluez.Error.Failed"⟩ rfl rfl rfl⟩

/-- Auxiliary: with `reconnect` set, the `if not opts.if_not_connected`
line is never reached in any iteration. -/
theorem connectLoop_reconnect_no_adoption (env : ClientEnv) (c : Bool) :
    ∀ rem k, CEvent.ifNotConnectedCheck ∉ (connectLoop env true c k rem).2 := by
  intro rem
  induction rem with
  | zero => intro k; simp [connectLoop]
  | succ m ih =>
    intro k
    have hm := ih (k + 1)
    simp only [connectLoop]
    cases env.connectResult k with
    | ok iface => simp
    | fail e =>
      by_cases h1 : e.name ≠ "org.bluez.Error.Failed"
      · simp [h1]
      · by_cases h2 : env.connectedProp k = false
        · simp [h1, h2]
        · cases hd : env.disconnectResult k with
          | ok u => simp [h1, h2, hd]; exact hm
          | fail d => simp [h1, h2, hd]

/-- Auxiliary: whenever at least one iteration of budget remains, a
`net.Connect` call for that iteration is issued first. -/
theorem connectLoop_first_call_mem (env : ClientEnv) (r c : Bool)
    (k m : Nat) :
    CEvent.connectCall k ∈ (connectLoop env r c k (m + 1)).2 := by
  simp only [connectLoop]
  cases env.connectResult k with
  | ok iface => simp
  | fail e =>
    by_cases h1 : e.name ≠ "org.bluez.Error.Failed"
    · simp [h1]
    · by_cases h2 : env.connectedProp k = false
      · simp [h1, h2]
      · by_cases h3 : r = true
        · subst h3
          cases hd : env.disconnectResult k with
          | ok u => simp [h1, h2, hd]
          | fail d => simp [h1, h2, hd]
        · have h3' : r = false := by
            cases r
            · rfl
            · exact absurd rfl h3
          subst h3'
          by_cases h4 : c = false
          · simp [h1, h2, h4]
          · have h4' : c = true := by
              cases c
              · exact absurd rfl h4
              · rfl
            subst h4'
            simp [h1, h2]

/-- Claim C10: with both `reconnect` and `if-not-connected` requested,
reconnect takes precedence: the adoption check of the `if-not-connected`
branch is never reached in any run, and when the first network-connect
fails with the generic error against a live connection (and the issued
`Disconnect` succeeds), the trace contains that `Disconnect` and a second
`net.Connect` attempt. -/
theorem client_reconnect_precedence (env : ClientEnv) :
    CEvent.ifNotConnectedCheck ∉ (clientConnect env true true).2
    ∧ ∀ e : DBusErr, env.connectResult 0 = .fail e →
        e.name = "org.bluez.Error.Failed" →
        env.connectedProp 0 = true →
        env.disconnectResult 0 = .ok () →
        CEvent.disconnectCall 0 ∈ (clientConnect env true true).2
        ∧ CEvent.connectCall 1 ∈ (clientConnect env true true).2 := by
  constructor
  · exact connectLoop_reconnect_no_adoption env true 2 0
  · intro e h1 h2 h3 h4
    constructor
    · simp [clientConnect, connectLoop, h1, h2, h3, h4]
    · simp only [clientConnect, connectLoop, h1, h2, h3, h4]
      simp [h2, h3, h4]
      cases henv : env.connectResult 1 with
      | ok iface => simp [henv]
      | fail e2 =>
        by_cases hn : e2.name = "org.bluez.Error.Failed"
        · by_cases hc : env.connectedProp 1 = false
          · simp [henv, hn, hc]
          · cases hd : env.disconnectResult 1 with
            | ok u => simp [henv, hn, hc, hd]
            | fail d => simp [henv, hn, hc, hd]
        · simp [henv, hn]

/-- Witness for C10: instantiated at a concrete environment whose first
connect fails generically against a live connection and whose retry
succeeds. -/
theorem client_reconnect_precedence_witness :
    envC10.connectResult 0 = .fail ⟨"org.bluez.Error.Failed"⟩
    ∧ envC10.connectedProp 0 = true
    ∧ envC10.disconnectResult 0 = .ok ()
    ∧ CEvent.ifNotConnectedCheck ∉ (clientConnect envC10 true true).2
    ∧ CEvent.disconnectCall 0 ∈ (clientConnect envC10 true true).2
    ∧ CEvent.connectCall 1 ∈ (clientConnect envC10 true true).2 := by
  refine ⟨rfl, rfl, rfl, (client_reconnect_precedence envC10).1, ?_, ?_⟩
  · exact ((client_reconnect_precedence envC10).2 ⟨"org.bluez.Error.Failed"⟩
      rfl rfl rfl rfl).1
  · exact ((client_reconnect_precedence envC10).2 ⟨"org.bluez.Error.Failed"⟩
      rfl rfl rfl rfl).2

/-- Claim C1 (divergence witness): with `if-not-connected` requested and
`reconnect` not, a pre-existing connection that makes every `net.Connect`
fail with the generic error does NOT end the run connected with the
adopted interface name.  The handler falls through without a `break`, a
second connect attempt is issued, and after the budget is exhausted the
`log.debug` call at line 217 evaluates the never-bound local `iface`,
raising `NameError`.  The trace shows two connect calls, no disconnect,
and no adoption of the pre-existing interface name (the `Interface`
property is never even read). -/
theorem client_if_not_connected_crashes :
    clientConnect envC1 false true =
      (.nameErrorUnboundIface,
       [.connectCall 0, .connectedGet 0, .ifNotConnectedCheck,
        .connectCall 1, .connectedGet 1, .ifNotConnectedCheck])
    ∧ countConnects (clientConnect envC1 false true).2 = 2 := by
  constructor
  · rfl
  · rfl

/-! ## Object directory resolver: theorem for claim C5 -/

/-- Claim C5 (divergence witness): with an already-resolved adapter as
scope, `find_device_in_objects` returns the first device under the
adapter's path whose address matches exactly; but with the same snapshot
and a pattern string as scope, the call raises `AttributeError`, because
`find_adapter_in_objects` is a generator function and the generator object
bound to `adapter` has no `object_path` attribute.  The claimed
pattern-string behaviour therefore never happens. -/
theorem find_device_pattern_scope_attribute_error :
    find_device_in_objects objsC5 "AA:BB:CC:DD:EE:FF"
        (some (.resolved "/org/bluez/hci0")) =
      .ok "/org/bluez/hci0/dev_AA_BB_CC_DD_EE_FF"
    ∧ find_device_in_objects objsC5 "AA:BB:CC:DD:EE:FF"
        (some (.patternStr "hci0")) = .error .attributeError
    ∧ find_device_in_objects objsC5 "00:00:00:00:00:00"
        (some (.resolved "/org/bluez/hci0")) = .error .deviceNotFound := by
  refine ⟨?_, ?_, ?_⟩ <;> rfl

/-! ## Service registrar: theorems for claims C2 and C3 -/

/-- Counterexample for claim C2: the claim says a failure of the leading
`Unregister` is ignored.  It is not: there is no `try/except` around line
183, so when the service answers the fresh `Unregister` with an error the
exception propagates, `Register` is never invoked, and the adapter ends
unregistered. -/
theorem register_unregister_failure_not_ignored :
    registerDev sC2 0 "nap" "bnep-bridge" =
      (.fail ⟨"org.bluez.Error.DoesNotExist"⟩, sC2)
    ∧ (registerDev sC2 0 "nap" "bnep-bridge").2.regs = [] := by
  constructor
  · rfl
  · rfl

/-- Claim C2 (amended): registration invokes unregister first and then
register, and a failure of the unregister propagates; when a stale prior
registration is present the unregister succeeds, so running the
unregister-then-register sequence a second time in succession never
fails. -/
theorem register_stale_idempotent (s : NapService) (a : Nat)
    (uuid iface_name : String) (h : (a, uuid) ∈ s.regs) :
    (registerDev s a uuid iface_name).1 = .ok ()
    ∧ (registerDev (registerDev s a uuid iface_name).2 a uuid iface_name).1 =
        .ok () := by
  have hf : ∀ l : List (Nat × String),
      (a, uuid) ∉ l.filter (fun q => decide (q ≠ (a, uuid))) := by
    intro l
    simp [List.mem_filter]
  constructor
  · simp [registerDev, srvUnregister, srvRegister, h, hf]
  · simp [registerDev, srvUnregister, srvRegister, h, hf, List.filter_cons]

/-- Witness for C2's amended theorem at a concrete stale state. -/
theorem register_stale_idempotent_witness :
    ((0 : Nat), "nap") ∈ (⟨[(0, "nap")], .ok (), .fail ⟨"x"⟩⟩ : NapService).regs
    ∧ (registerDev ⟨[(0, "nap")], .ok (), .fail ⟨"x"⟩⟩ 0 "nap" "bnep-bridge").1 =
        .ok ()
    ∧ (registerDev
        (registerDev ⟨[(0, "nap")], .ok (), .fail ⟨"x"⟩⟩ 0 "nap" "bnep-bridge").2
        0 "nap" "bnep-bridge").1 = .ok () := by
  refine ⟨by decide, ?_, ?_⟩
  · exact (register_stale_idempotent ⟨[(0, "nap")], .ok (), .fail ⟨"x"⟩⟩ 0
      "nap" "bnep-bridge" (by decide)).1
  · exact (register_stale_idempotent ⟨[(0, "nap")], .ok (), .fail ⟨"x"⟩⟩ 0
      "nap" "bnep-bridge" (by decide)).2

/-- Counterexample for claim C3: during shutdown, a failing `Unregister`
is fatal to the cleanup loop.  Here adapter 0's unregister fails; adapter
1, although still registered, receives no `Unregister` call (the call list
is `[0]` and `(1, nap)` is still registered afterwards) and the loop's
result is the error, which then becomes the process outcome. -/
theorem cleanup_unregister_failure_cex :
    cleanupUnreg "nap" [0, 1] sC3 =
      (.fail ⟨"org.bluez.Error.Failed"⟩, sC3, [0])
    ∧ (1, "nap") ∈ (cleanupUnreg "nap" [0, 1] sC3).2.1.regs := by
  constructor
  · rfl
  · decide

/-- Claim C3 (amended): a failure of one unregister call during the
shutdown loop aborts it: the remaining registered adapters receive no
unregister call and the failure is the loop's result, which replaces the
process's exit outcome. -/
theorem cleanup_unregister_failure_aborts (uuid : String) (a : Nat)
    (rest : List Nat) (s s1 : NapService) (e : DBusErr)
    (h : srvUnregister s a uuid = (.fail e, s1)) :
    cleanupUnreg uuid (a :: rest) s = (.fail e, s1, [a]) := by
  simp [cleanupUnreg, h]

/-- Witness for C3's amended theorem at the concrete shutdown state. -/
theorem cleanup_unregister_failure_aborts_witness :
    srvUnregister sC3 0 "nap" = (.fail ⟨"org.bluez.Error.Failed"⟩, sC3)
    ∧ cleanupUnreg "nap" [0, 1] sC3 =
        (.fail ⟨"org.bluez.Error.Failed"⟩, sC3, [0]) :=
  ⟨by decide,
    cleanup_unregister_failure_aborts "nap" 0 [1] sC3 sC3
      ⟨"org.bluez.Error.Failed"⟩ (by decide)⟩

/-! ## Server lifecycle: theorems for claims C6 and C8 -/

/-- Specification of one registration step when the service accepts a
fresh `Unregister` (its `unregMissing` policy is success): the step
succeeds, the policy fields are unchanged, and the registrations
afterwards are exactly the old ones plus `(a, uuid)`. -/
theorem registerDev_ok_of (s : NapService) (a : Nat) (uuid iface_name : String)
    (h : s.unregMissing = DRes.ok ()) :
    (registerDev s a uuid iface_name).1 = DRes.ok ()
    ∧ (registerDev s a uuid iface_name).2.unregMissing = DRes.ok ()
    ∧ (registerDev s a uuid iface_name).2.regExisting = s.regExisting
    ∧ ∀ p, p ∈ (registerDev s a uuid iface_name).2.regs ↔
        (p = (a, uuid) ∨ p ∈ s.regs) := by
  by_cases hm : (a, uuid) ∈ s.regs
  · have hnm : (a, uuid) ∉ s.regs.filter (fun q => decide (q ≠ (a, uuid))) := by
      simp [List.mem_filter]
    refine ⟨?_, ?_, ?_, ?_⟩
    · simp [registerDev, srvUnregister, srvRegister, hm, hnm]
    · simp [registerDev, srvUnregister, srvRegister, hm, hnm, h]
    · simp [registerDev, srvUnregister, srvRegister, hm, hnm]
    · intro p
      simp only [registerDev, srvUnregister, srvRegister, if_pos hm]
      rw [if_neg hnm]
      simp [List.mem_filter]
      constructor
      · rintro (hp | ⟨hp, _⟩)
        · exact Or.inl hp
        · exact Or.inr hp
      · rintro (hp | hp)
        · exact Or.inl hp
        · by_cases hq : p = (a, uuid)
          · exact Or.inl hq
          · exact Or.inr ⟨hp, hq⟩
  · refine ⟨?_, ?_, ?_, ?_⟩
    · simp [registerDev, srvUnregister, srvRegister, hm, h]
    · simp [registerDev, srvUnregister, srvRegister, hm, h]
    · simp [registerDev, srvUnregister, srvRegister, hm, h]
    · intro p
      simp only [registerDev, srvUnregister, if_neg hm, h]
      simp only [srvRegister, if_neg hm]
      simp [List.mem_cons]

/-- Specification of the registration phase when the service accepts fresh
`Unregister` calls: every adapter registers, each is appended to
`servers`, and afterwards `(a, uuid)` is registered for every processed
adapter `a`. -/
theorem registerAll_ok_of (uuid iface_name : String) :
    ∀ (devs : List Nat) (s : NapService) (acc : List Nat),
    s.unregMissing = DRes.ok () →
    (registerAll uuid iface_name devs s acc).1 = DRes.ok ()
    ∧ (registerAll uuid iface_name devs s acc).2.1.unregMissing = DRes.ok ()
    ∧ (registerAll uuid iface_name devs s acc).2.2 = acc ++ devs
    ∧ ∀ p, p ∈ (registerAll uuid iface_name devs s acc).2.1.regs ↔
        ((p.1 ∈ devs ∧ p.2 = uuid) ∨ p ∈ s.regs) := by
  intro devs
  induction devs with
  | nil =>
    intro s acc h
    refine ⟨rfl, h, by simp [registerAll], ?_⟩
    intro p
    simp [registerAll]
  | cons a rest ih =>
    intro s acc h
    obtain ⟨h1, h2, h3, h4⟩ := registerDev_ok_of s a uuid iface_name h
    rcases hd : registerDev s a uuid iface_name with ⟨r1, s1⟩
    rw [hd] at h1 h2 h3 h4
    simp only at h1 h2 h3 h4
    subst h1
    have hstep : registerAll uuid iface_name (a :: rest) s acc =
        registerAll uuid iface_name rest s1 (acc ++ [a]) := by
      simp [registerAll, hd]
    obtain ⟨g1, g2, g3, g4⟩ := ih s1 (acc ++ [a]) h2
    refine ⟨by rw [hstep]; exact g1, by rw [hstep]; exact g2, ?_, ?_⟩
    · rw [hstep, g3]
      simp
    · intro p
      rw [hstep]
      rw [g4 p, h4 p]
      simp only [List.mem_cons]
      constructor
      · rintro (⟨hp1, hp2⟩ | hp | hp)
        · exact Or.inl ⟨Or.inr hp1, hp2⟩
        · rcases p with ⟨p1, p2⟩
          simp only [Prod.mk.injEq] at hp
          exact Or.inl ⟨Or.inl hp.1, hp.2⟩
        · exact Or.inr hp
      · rintro (⟨hp1 | hp1, hp2⟩ | hp)
        · refine Or.inr (Or.inl ?_)
          rcases p with ⟨p1, p2⟩
          simp only at hp1 hp2
          simp [hp1, hp2]
        · exact Or.inl ⟨hp1, hp2⟩
        · exact Or.inr (Or.inr hp)

/-- Specification of the shutdown loop when every listed adapter is
registered and the list has no duplicates: every unregister succeeds and
each adapter receives exactly one `Unregister` call, in order. -/
theorem cleanupUnreg_all_ok (uuid : String) :
    ∀ (servers : List Nat) (s : NapService),
    servers.Nodup → (∀ a ∈ servers, (a, uuid) ∈ s.regs) →
    (cleanupUnreg uuid servers s).1 = DRes.ok ()
    ∧ (cleanupUnreg uuid servers s).2.2 = servers := by
  intro servers
  induction servers with
  | nil => intro s _ _; exact ⟨rfl, rfl⟩
  | cons a rest ih =>
    intro s hnd hmem
    have ha : (a, uuid) ∈ s.regs := hmem a (List.mem_cons_self a rest)
    have hu : srvUnregister s a uuid =
        (.ok (), ⟨s.regs.filter (fun q => decide (q ≠ (a, uuid))),
          s.unregMissing, s.regExisting⟩) := by
      simp [srvUnregister, ha]
    have hnd' : rest.Nodup := hnd.of_cons
    have hanotin : a ∉ rest := by
      intro hcon
      exact (List.nodup_cons.mp hnd).1 hcon
    have hmem' : ∀ b ∈ rest,
        (b, uuid) ∈ s.regs.filter (fun q => decide (q ≠ (a, uuid))) := by
      intro b hb
      have hbne : b ≠ a := fun hba => hanotin (hba ▸ hb)
      have : (b, uuid) ≠ (a, uuid) := by
        intro hcon
        exact hbne (congrArg Prod.fst hcon)
      simp [List.mem_filter, hmem b (List.mem_cons_of_mem a hb), this]
    obtain ⟨g1, g2⟩ := ih ⟨s.regs.filter (fun q => decide (q ≠ (a, uuid))),
      s.unregMissing, s.regExisting⟩ hnd' hmem'
    rcases hrec : cleanupUnreg uuid rest
        ⟨s.regs.filter (fun q => decide (q ≠ (a, uuid))),
         s.unregMissing, s.regExisting⟩ with ⟨r2, s2, calls⟩
    rw [hrec] at g1 g2
    simp only at g1 g2
    subst g1
    have hstep : cleanupUnreg uuid (a :: rest) s = (DRes.ok (), s2, a :: calls) := by
      simp only [cleanupUnreg, hu]
      rw [hrec]
    constructor
    · rw [hstep]
    · rw [hstep, g2]

/-- Claim C6: with a passing bridge check, distinct adapters and a service
that accepts fresh `Unregister` calls, a termination signal received while
serving produces a clean exit with status 0 (the SIGTERM handler's
`sys.exit(0)` is equivalent to the interrupt path), after the `finally`
block has issued exactly one `Unregister` call for every adapter that was
successfully registered during the run (which is all of them). -/
theorem sigterm_cleanup_unregisters_each_once
    (devs : List Nat) (uuid iface_name : String) (s : NapService)
    (hnd : devs.Nodup) (hum : s.unregMissing = DRes.ok ()) :
    (server_main ⟨0, ""⟩ devs uuid iface_name s .sigterm).outcome =
      ServerOutcome.cleanExit
    ∧ processExitCode
        (server_main ⟨0, ""⟩ devs uuid iface_name s .sigterm).outcome = 0
    ∧ (server_main ⟨0, ""⟩ devs uuid iface_name s .sigterm).servers = devs
    ∧ (server_main ⟨0, ""⟩ devs uuid iface_name s .sigterm).cleanupCalls =
        (server_main ⟨0, ""⟩ devs uuid iface_name s .sigterm).servers
    ∧ ∀ a ∈ (server_main ⟨0, ""⟩ devs uuid iface_name s .sigterm).servers,
        (server_main ⟨0, ""⟩ devs uuid iface_name s .sigterm).cleanupCalls.count
          a = 1 := by
  obtain ⟨h1, h2, h3, h4⟩ := registerAll_ok_of uuid iface_name devs s [] hum
  have h3' : (registerAll uuid iface_name devs s []).2.2 = devs := by
    simpa using h3
  rcases hra : registerAll uuid iface_name devs s [] with ⟨r1, s1, servers⟩
  rw [hra] at h1 h2 h3' h4
  simp only at h1 h2 h3' h4
  subst h1
  rw [h3'] at hra
  have hmem : ∀ a ∈ devs, (a, uuid) ∈ s1.regs := by
    intro a ha
    exact (h4 (a, uuid)).mpr (Or.inl ⟨ha, rfl⟩)
  have hcond : ¬((⟨0, ""⟩ : BrctlResult).exitCode ≠ 0
      ∨ (⟨0, ""⟩ : BrctlResult).stderrOutput ≠ "") := by
    simp
  by_cases hdev : devs = []
  · subst hdev
    have hrun : server_main ⟨0, ""⟩ [] uuid iface_name s .sigterm =
        ⟨interruptOutcome .sigterm, s1, [], [], false, true⟩ := by
      simp [server_main, hcond, hra]
    rw [hrun]
    simp [interruptOutcome, processExitCode]
  · obtain ⟨g1, g2⟩ := cleanupUnreg_all_ok uuid devs s1 hnd hmem
    rcases hcl : cleanupUnreg uuid devs s1 with ⟨r2, s2, calls⟩
    rw [hcl] at g1 g2
    simp only at g1 g2
    subst g1
    rw [g2] at hcl
    have hrun : server_main ⟨0, ""⟩ devs uuid iface_name s .sigterm =
        ⟨interruptOutcome .sigterm, s2, devs, devs, false, true⟩ := by
      simp [server_main, hcond, hra, hdev, hcl]
    rw [hrun]
    refine ⟨rfl, rfl, rfl, rfl, ?_⟩
    intro a ha
    exact List.count_eq_one_of_mem hnd ha

/-- Witness for C6 at a concrete run: two distinct adapters, an initially
empty lenient service, SIGTERM during serving. -/
theorem sigterm_cleanup_unregisters_each_once_witness :
    ([0, 1] : List Nat).Nodup
    ∧ (⟨[], .ok (), .fail ⟨"x"⟩⟩ : NapService).unregMissing = DRes.ok ()
    ∧ (server_main ⟨0, ""⟩ [0, 1] "nap" "bnep-bridge"
        ⟨[], .ok (), .fail ⟨"x"⟩⟩ .sigterm).outcome = ServerOutcome.cleanExit
    ∧ (server_main ⟨0, ""⟩ [0, 1] "nap" "bnep-bridge"
        ⟨[], .ok (), .fail ⟨"x"⟩⟩ .sigterm).cleanupCalls =
        (server_main ⟨0, ""⟩ [0, 1] "nap" "bnep-bridge"
          ⟨[], .ok (), .fail ⟨"x"⟩⟩ .sigterm).servers := by
  have h := sigterm_cleanup_unregisters_each_once [0, 1] "nap" "bnep-bridge"
    ⟨[], .ok (), .fail ⟨"x"⟩⟩ (by decide) rfl
  exact ⟨by decide, rfl, h.1, h.2.2.2.1⟩

/-- Claim C8: the server-mode bridge precondition succeeds exactly when
`brctl` exits 0 with empty stderr; on any deviation the run prints the
remediation text and returns 1, with no adapter registered, the service
state untouched, and the wait loop never entered. -/
theorem server_bridge_precondition (br : BrctlResult) (devs : List Nat)
    (uuid iface_name : String) (s : NapService) (intr : ServeEvent) :
    ((br.exitCode = 0 ∧ br.stderrOutput = "") ↔
      (server_main br devs uuid iface_name s intr).outcome ≠
        ServerOutcome.bridgeFailed)
    ∧ (¬(br.exitCode = 0 ∧ br.stderrOutput = "") →
        server_main br devs uuid iface_name s intr =
          ⟨.bridgeFailed, s, [], [], true, false⟩
        ∧ processExitCode
            (server_main br devs uuid iface_name s intr).outcome = 1) := by
  by_cases h : br.exitCode = 0 ∧ br.stderrOutput = ""
  · have hcond : ¬(br.exitCode ≠ 0 ∨ br.stderrOutput ≠ "") := by
      simp [h.1, h.2]
    constructor
    · constructor
      · intro _
        simp only [server_main]
        rw [if_neg hcond]
        rcases hra : registerAll uuid iface_name devs s [] with ⟨r1, s1, servers⟩
        cases r1 with
        | fail e =>
          by_cases hs : servers = []
          · simp [hs]
          · rcases hcl : cleanupUnreg uuid servers s1 with ⟨r2, s2, calls⟩
            cases r2 with
            | ok u => simp [hs, hcl]
            | fail e2 => simp [hs, hcl]
        | ok u =>
          by_cases hs : servers = []
          · cases intr <;> simp [hs, interruptOutcome]
          · rcases hcl : cleanupUnreg uuid servers s1 with ⟨r2, s2, calls⟩
            cases r2 with
            | ok u2 => cases intr <;> simp [hs, hcl, interruptOutcome]
            | fail e2 => simp [hs, hcl]
      · intro _
        exact h
    · intro hcon
      exact absurd h hcon
  · have hcond : br.exitCode ≠ 0 ∨ br.stderrOutput ≠ "" := by
      by_cases h1 : br.exitCode = 0
      · right
        intro h2
        exact h ⟨h1, h2⟩
      · left
        exact h1
    have hrun : server_main br devs uuid iface_name s intr =
        ⟨.bridgeFailed, s, [], [], true, false⟩ := by
      simp only [server_main]
      rw [if_pos hcond]
    constructor
    · constructor
      · intro hcon
        exact absurd hcon h
      · intro hne
        rw [hrun] at hne
        simp at hne
    · intro _
      exact ⟨hrun, by rw [hrun]; rfl⟩

/-- Witness for C8 at a concrete failing bridge check (`brctl` exit 1). -/
theorem server_bridge_precondition_witness :
    ¬((⟨1, ""⟩ : BrctlResult).exitCode = 0
        ∧ (⟨1, ""⟩ : BrctlResult).stderrOutput = "")
    ∧ server_main ⟨1, ""⟩ [0] "nap" "bnep-bridge"
        ⟨[], .ok (), .fail ⟨"x"⟩⟩ .sigterm =
        ⟨.bridgeFailed, ⟨[], .ok (), .fail ⟨"x"⟩⟩, [], [], true, false⟩
    ∧ processExitCode
        (server_main ⟨1, ""⟩ [0] "nap" "bnep-bridge"
          ⟨[], .ok (), .fail ⟨"x"⟩⟩ .sigterm).outcome = 1 := by
  have h := (server_bridge_precondition ⟨1, ""⟩ [0] "nap" "bnep-bridge"
    ⟨[], .ok (), .fail ⟨"x"⟩⟩ .sigterm).2 (by simp)
  exact ⟨by simp, h.1, h.2⟩

/-! ## Liveness loop: theorem for claim C7 -/

/-- Concrete watchdog environment: the supervisor reports pid 42 and a
2-second interval, and the process pid is 42. -/
def envC7 : WatchdogEnv := ⟨some "42", some 2000000, 42⟩

/-- Counting distributes over trace concatenation. -/
theorem countNote_append (x : SdNote) :
    ∀ l1 l2 : List SdNote,
      countNote x (l1 ++ l2) = countNote x l1 + countNote x l2 := by
  intro l1
  induction l1 with
  | nil => intro l2; simp [countNote]
  | cons y l ih =>
    intro l2
    simp [countNote, ih]
    omega

/-- Once `sd_ready` is set, further iterations emit no readiness or status
notification. -/
theorem wait_iter_run_after_ready (role : String) (w : Bool) :
    ∀ n, countNote .ready (wait_iter_run role w n true) = 0
    ∧ countNote (.statusMsg role) (wait_iter_run role w n true) = 0 := by
  intro n
  induction n with
  | zero => exact ⟨rfl, rfl⟩
  | succ m ih =>
    cases w with
    | true => simpa [wait_iter_run, wait_iter_step, countNote_append, countNote]
        using ih
    | false => simpa [wait_iter_run, wait_iter_step, countNote_append, countNote]
        using ih

/-- With `sd_wdt` false, no iteration ever emits a watchdog ping. -/
theorem wait_iter_run_no_watchdog (role : String) :
    ∀ n b, countNote .watchdog (wait_iter_run role false n b) = 0 := by
  intro n
  induction n with
  | zero => intro b; rfl
  | succ m ih =>
    intro b
    cases b with
    | true => simpa [wait_iter_run, wait_iter_step, countNote_append, countNote]
        using ih true
    | false => simpa [wait_iter_run, wait_iter_step, countNote_append, countNote]
        using ih true

/-- The setup enables the watchdog only when the pid guard matched. -/
theorem wait_iter_setup_wdt_imp (env : WatchdogEnv) (t : Nat)
    (h : wait_iter_setup env = .ok true t) : pidMatches env = true := by
  by_cases hp : pidMatches env
  · exact hp
  · rw [wait_iter_setup, if_neg hp] at h
    simp at h

/-- Without a pid match the setup yields the plain hourly sleep. -/
theorem wait_iter_setup_no_match (env : WatchdogEnv)
    (h : pidMatches env = false) :
    wait_iter_setup env = .ok false wait_iter_noop := by
  rw [wait_iter_setup, if_neg (by simp [h])]

/-- A notification absent from a trace by count is absent by membership. -/
theorem countNote_zero_not_mem (x : SdNote) :
    ∀ l : List SdNote, countNote x l = 0 → x ∉ l := by
  intro l
  induction l with
  | nil => intro _ h; exact absurd h (List.not_mem_nil x)
  | cons y t ih =>
    intro h hmem
    by_cases hy : y = x
    · rw [countNote, if_pos hy] at h
      omega
    · rw [countNote, if_neg hy] at h
      rcases List.mem_cons.mp hmem with h1 | h1
      · exact hy h1.symm
      · exact ih (by omega) h1

/-- Claim C7: provided the watchdog configuration does not crash the
process before the loop, a run of at least one iteration emits the
readiness notification and the status message exactly once regardless of
the iteration count, watchdog pings appear only if the supervisor-provided
expected pid matched the running pid, and with no pid match no ping is
ever emitted. -/
theorem wait_iter_ready_once_and_ping_guard (env : WatchdogEnv)
    (role : String) (n : Nat) (hn : 1 ≤ n)
    (hok : wait_iter_setup env ≠ .crashed) :
    countNote .ready (liveness env role n) = 1
    ∧ countNote (.statusMsg role) (liveness env role n) = 1
    ∧ (SdNote.watchdog ∈ liveness env role n → pidMatches env = true)
    ∧ (pidMatches env = false →
        countNote .watchdog (liveness env role n) = 0) := by
  cases hs : wait_iter_setup env with
  | crashed => exact absurd hs hok
  | ok w t =>
    have hl : liveness env role n = wait_iter_run role w n false := by
      rw [liveness, hs]
    rcases n with _ | m
    · omega
    have hready := wait_iter_run_after_ready role w m
    refine ⟨?_, ?_, ?_, ?_⟩
    · rw [hl]
      cases w with
      | true => simp [wait_iter_run, wait_iter_step, countNote_append,
          countNote, hready.1]
      | false => simp [wait_iter_run, wait_iter_step, countNote_append,
          countNote, hready.1]
    · rw [hl]
      cases w with
      | true => simp [wait_iter_run, wait_iter_step, countNote_append,
          countNote, hready.2]
      | false => simp [wait_iter_run, wait_iter_step, countNote_append,
          countNote, hready.2]
    · intro hmem
      rw [hl] at hmem
      cases w with
      | true => exact wait_iter_setup_wdt_imp env t hs
      | false =>
        exact absurd hmem
          (countNote_zero_not_mem _ _
            (wait_iter_run_no_watchdog role (m + 1) false))
    · intro hnm
      have hsn := wait_iter_setup_no_match env hnm
      rw [hsn] at hs
      have hw : w = false := ((WaitSetup.ok.injEq ..).mp hs).1.symm
      rw [hl, hw]
      exact wait_iter_run_no_watchdog role (m + 1) false

/-- Witness for C7: three iterations in the concrete matched environment. -/
theorem wait_iter_ready_once_and_ping_guard_witness :
    (1 ≤ 3)
    ∧ wait_iter_setup envC7 ≠ .crashed
    ∧ countNote .ready (liveness envC7 "server" 3) = 1
    ∧ countNote (.statusMsg "server") (liveness envC7 "server" 3) = 1
    ∧ (SdNote.watchdog ∈ liveness envC7 "server" 3 → pidMatches envC7 = true) := by
  have h := wait_iter_ready_once_and_ping_guard envC7 "server" 3 (by omega)
    (by decide)
  exact ⟨by omega, by decide, h.1, h.2.1, h.2.2.1⟩
